import Mathlib

/-!
Verification of the MiroFish `Step4Report` view component (the two
near-identical variants `src/frontend/src/components/Step4Report.vue` and
`src/unnamed/part_000`): a shallow embedding of its log-ingestion reducer,
cursor-based fetchers, regex-based tool-result extractors and lightweight
markdown renderer, with theorems checking the specification's claims.

Strings are modelled as `List Char`; each JavaScript regex that the source
uses is embedded as a dedicated scanning function whose semantics (leftmost
match, greedy/lazy quantifiers, backtracking) is spelled out in its doc
comment.
-/

namespace MiroFish

abbrev Str := List Char

/-- JS `\s` membership, restricted to the ASCII whitespace characters that
occur in the component's inputs (space, tab, newline, carriage return). -/
def isWS (c : Char) : Bool := c == ' ' || c == '\t' || c == '\n' || c == '\r'

/-- JS `\d` membership. -/
def isDigitCh (c : Char) : Bool := '0' ≤ c && c ≤ '9'

/-- JS `\w` membership (letters, digits, underscore), as used by the
code-fence language tag `(\w*)`. -/
def isWordCh (c : Char) : Bool :=
  ('a' ≤ c && c ≤ 'z') || ('A' ≤ c && c ≤ 'Z') || isDigitCh c || c == '_'

/-- JS `String.prototype.trim` (for the whitespace alphabet above). -/
def jsTrim (s : Str) : Str := ((s.dropWhile isWS).reverse.dropWhile isWS).reverse

def jsTrimS (s : Str) : String := ⟨jsTrim s⟩

/-- Decimal value of a run of digit characters, as `parseInt` computes it on
the all-digit groups captured by the source's `(\d+)` patterns. -/
def digitVal (l : Str) : Nat := l.foldl (fun a c => a * 10 + (c.toNat - '0'.toNat)) 0

/-- JS `text.split('\n')`: splits at every newline, keeping empty pieces
(`''.split('\n') = ['']`). -/
def splitLines : Str → List Str
  | [] => [[]]
  | c :: cs =>
    if c = '\n' then [] :: splitLines cs
    else
      match splitLines cs with
      | [] => [[c]]
      | l :: ls => (c :: l) :: ls

def joinLines (ls : List Str) : Str := (ls.intersperse ['\n']).flatten

/-- `true` iff `pat` occurs as a contiguous substring of the text. -/
def hasSeq (pat : Str) : Str → Bool
  | [] => pat.isPrefixOf []
  | c :: cs => pat.isPrefixOf (c :: cs) || hasSeq pat cs

/-- Substring test on `String`s (used to phrase "the text contains none of
the expected anchor markers"). -/
def containsTok (pat text : String) : Bool := hasSeq pat.data text.data

/-- Leftmost-match scan of a (non-global) JS regex: the matcher `p` is tried
at every start position from left to right (including the empty suffix) and
the first success wins — exactly how `String.prototype.match` locates a
match for an un-anchored pattern. -/
def scanFirst (p : Str → Option α) : Str → Option α
  | [] => p []
  | c :: cs =>
    match p (c :: cs) with
    | some r => some r
    | none => scanFirst p cs

/-- A pattern that begins with the literal `pat`: it matches a suffix only
when `pat` is a prefix, then hands the remainder to `f`. -/
def anchored (pat : Str) (f : Str → Option α) (s : Str) : Option α :=
  if pat.isPrefixOf s then f (s.drop pat.length) else none

/-- Lazy group `([\s\S]*?)(?=A|B|$)`: the shortest prefix of the input after
which one of the `stops` literals starts (or the input ends). -/
def lazyUntil (stops : List Str) : Str → Str
  | [] => []
  | c :: cs =>
    if stops.any (·.isPrefixOf (c :: cs)) then [] else c :: lazyUntil stops cs

/-- Lazy group `([\s\S]*?)(?=A|B)` with no end-of-input alternative: fails
when no stop literal occurs in the remainder. -/
def lazyUntilNoEnd (stops : List Str) : Str → Option Str
  | [] => none
  | c :: cs =>
    if stops.any (·.isPrefixOf (c :: cs)) then some []
    else (lazyUntilNoEnd stops cs).map (c :: ·)

/-- Tail semantics of the JS pattern `\s*(.+?)(?:\n|$)` applied after an
anchor literal.  The greedy `\s*` first consumes the maximal whitespace run;
if a character is left, the lazy `(.+?)` captures up to (excluding) the next
newline.  If the whole remainder is whitespace, the engine backtracks `\s*`
to the largest position holding a non-newline character, which then forms a
one-character group (everything after it is `'\n'`).  No such position means
no match. -/
def wsLineTail (rest : Str) : Option Str :=
  let r := rest.dropWhile isWS
  if r.isEmpty then
    match rest.reverse.dropWhile (· == '\n') with
    | [] => none
    | c :: _ => some [c]
  else some (r.takeWhile (· != '\n'))

/-- Lazy group `(.+?)` (one or more non-newline characters, shortest first)
followed by a continuation `tail` that is retried under full backtracking:
the group grows one character at a time until `tail` accepts the rest. -/
def lazyDot (tail : Str → Option α) : Str → Option (Str × α)
  | [] => none
  | c :: cs =>
    if c = '\n' then none
    else
      match tail cs with
      | some a => some ([c], a)
      | none => (lazyDot tail cs).map (fun ga => (c :: ga.1, ga.2))

/-- `(.+?)` up to a closing literal: yields the group and the remainder after
the closing literal. -/
def lazyDotThen (close : Str) : Str → Option (Str × Str) :=
  lazyDot (fun r => if close.isPrefixOf r then some (r.drop close.length) else none)

/-- Worker for `gsub`, structurally recursive on a fuel bound.  Every match
consumes at least one character, so fuel equal to the input length (as
supplied by `gsub`) never runs out; the fuel-exhausted fallback copies the
rest unchanged. -/
def gsubF (step : Str → Option (Str × Nat)) : Nat → Str → Str
  | _, [] => []
  | 0, s => s
  | f + 1, c :: cs =>
    match step (c :: cs) with
    | some (rep, n) => rep ++ gsubF step f (cs.drop (n - 1))
    | none => c :: gsubF step f cs

/-- Global regex replace (`.replace(/…/g, …)`): at each position the `step`
matcher either consumes a nonempty chunk of length `n`, emitting its
replacement and resuming after the chunk, or the character is copied and the
scan advances by one. -/
def gsub (step : Str → Option (Str × Nat)) (s : Str) : Str :=
  gsubF step s.length s

/-- Worker for `gscan` (same fuel discipline as `gsubF`; the fallback
reports no further matches). -/
def gscanF (step : Str → Option (α × Nat)) : Nat → Str → List α
  | _, [] => []
  | 0, _ => []
  | f + 1, c :: cs =>
    match step (c :: cs) with
    | some (a, n) => a :: gscanF step f (cs.drop (n - 1))
    | none => gscanF step f cs

/-- Global regex match list (`.match(/…/g)` / `matchAll`): like `gsub` but
collecting one value per match. -/
def gscan (step : Str → Option (α × Nat)) (s : Str) : List α :=
  gscanF step s.length s

/-- Worker for `splitRe` (same fuel discipline; the fallback leaves the rest
as one unsplit piece). -/
def splitReF (step : Str → Option Nat) : Nat → Str → List Str
  | _, [] => [[]]
  | 0, s => [s]
  | f + 1, c :: cs =>
    match step (c :: cs) with
    | some n => [] :: splitReF step f (cs.drop (n - 1))
    | none =>
      match splitReF step f cs with
      | [] => [[c]]
      | p :: ps => (c :: p) :: ps

/-- JS `String.prototype.split` with a regex separator: `step` reports the
length of a separator match starting at the current position; pieces are the
maximal chunks between non-overlapping, leftmost separator matches. -/
def splitRe (step : Str → Option Nat) (s : Str) : List Str :=
  splitReF step s.length s

/-- JS `String.prototype.split` with a literal (nonempty) string separator. -/
def splitOnSeq (sep : Str) : Str → List Str :=
  splitRe (fun s => if sep.isPrefixOf s then some sep.length else none)

/-- Index of the first occurrence of `pat`. -/
def firstIdxOfSeq (pat : Str) : Str → Option Nat
  | [] => if pat.isEmpty then some 0 else none
  | c :: cs =>
    if pat.isPrefixOf (c :: cs) then some 0
    else (firstIdxOfSeq pat cs).map (· + 1)

/-- Index just past the last occurrence of `pat`. -/
def lastEndOfSeq (pat : Str) : Str → Option Nat
  | [] => if pat.isEmpty then some 0 else none
  | c :: cs =>
    match lastEndOfSeq pat cs with
    | some e => some (e + 1)
    | none => if pat.isPrefixOf (c :: cs) then some pat.length else none

def dropWS (s : Str) : Str := s.dropWhile isWS

def takeDigits (s : Str) : Str := s.takeWhile isDigitCh

/-- JS `replace(/^"|"$/g, '')`: one leading and one trailing double-quote
character are removed (each independently, at most once). -/
def stripQuotes (l : Str) : Str :=
  let l1 := if l.headD ' ' == '"' then l.tail else l
  if l1.getLast? == some '"' then l1.dropLast else l1

/-- Test for the filter `l.match(/^\d+\./)`: a line beginning with one or
more digits followed by a dot. -/
def enumLineTest (l : Str) : Bool :=
  let d := takeDigits l
  !d.isEmpty && (l.drop d.length).headD ' ' == '.'

/-- `sec.split('\n').filter(l => l.match(/^\d+\./))`. -/
def enumLines (sec : Str) : List Str := (splitLines sec).filter enumLineTest

/-- `l.replace(/^\d+\.\s*/, '')`: drop a leading digit run, a dot and the
maximal following whitespace; unchanged when the pattern is absent. -/
def stripEnum (l : Str) : Str :=
  let d := takeDigits l
  if !d.isEmpty && (l.drop d.length).headD ' ' == '.' then
    dropWS (l.drop (d.length + 1))
  else l

/-! ## Extracted tool-result records

The four record shapes returned by the extractors
(`Step4Report.vue` lines 391–654; identical in `part_000` except for
`parseInterview`, whose `part_000` variant is not needed by any claim's
statement against this embedding). -/

structure EntityRec where
  name : String
  type : String
deriving DecidableEq

structure RelationRec where
  source : String
  relation : String
  target : String
deriving DecidableEq

structure InsightStats where
  facts : Nat
  entities : Nat
  relationships : Nat
deriving DecidableEq

structure InsightResult where
  query : String
  stats : InsightStats
  subQueries : List String
  facts : List String
  entities : List EntityRec
  relations : List RelationRec
deriving DecidableEq

/-- The all-default record initialised at the top of `parseInsightForge`. -/
def emptyInsight : InsightResult :=
  { query := "", stats := ⟨0, 0, 0⟩, subQueries := [], facts := [],
    entities := [], relations := [] }

structure PanoramaStats where
  nodes : Nat
  edges : Nat
  activeFacts : Nat
  historicalFacts : Nat
deriving DecidableEq

structure PanoramaResult where
  query : String
  stats : PanoramaStats
  activeFacts : List String
  historicalFacts : List String
  entities : List EntityRec
deriving DecidableEq

def emptyPanorama : PanoramaResult :=
  { query := "", stats := ⟨0, 0, 0, 0⟩, activeFacts := [],
    historicalFacts := [], entities := [] }

structure InterviewRec where
  num : Nat
  title : String
  name : String
  role : String
  bio : String
  questions : List String
  twitterAnswer : String
  redditAnswer : String
  quotes : List String
deriving DecidableEq

structure InterviewResult where
  topic : String
  agentCount : String
  successCount : Nat
  totalCount : Nat
  selectionReason : String
  interviews : List InterviewRec
  summary : String
deriving DecidableEq

def emptyInterview : InterviewResult :=
  { topic := "", agentCount := "", successCount := 0, totalCount := 0,
    selectionReason := "", interviews := [], summary := "" }

structure QuickSearchResult where
  query : String
  count : Nat
  facts : List String
deriving DecidableEq

def emptyQuickSearch : QuickSearchResult := { query := "", count := 0, facts := [] }

/-! ## Shared field matchers -/

/-- `text.match(/ANCHOR\s*(.+?)(?:\n|$)/)` followed by `match[1].trim()`,
defaulting to `''` — the shape of the `query`/`topic` field extractions. -/
def anchorLineVal (pat : String) (t : Str) : String :=
  match scanFirst (anchored pat.data wsLineTail) t with
  | some g => jsTrimS g
  | none => ""

/-- `text.match(/ANCHOR\s*(\d+)/)` + `parseInt(match[1])`: after the first
anchor occurrence whose maximal following whitespace run is followed by a
digit, the value of the maximal digit run there (the greedy `\s*` cannot
backtrack into a success because no whitespace character is a digit). -/
def anchorNatVal (pat : String) (t : Str) : Option Nat :=
  scanFirst (anchored pat.data (fun r =>
    let d := takeDigits (dropWS r)
    if d.isEmpty then none else some (digitVal d))) t

/-- `text.match(/ANCHOR([\s\S]*?)(?=STOP…|$)/)`: section body from just
after the anchor to the first stop-literal position (or the end). -/
def anchorSection (pat : String) (stops : List String) (t : Str) : Option Str :=
  scanFirst (anchored pat.data (fun r =>
    some (lazyUntil (stops.map (·.data)) r))) t

/-- `text.match(/ANCHOR[\s\S]*?\n([\s\S]*?)(?=STOP…|$)/)`: the lazy
`[\s\S]*?\n` skips to just past the first newline after the anchor (the
attempt at an anchor occurrence with no following newline fails and the
scan continues). -/
def anchorSectionAfterNL (pat : String) (stops : List String) (t : Str) : Option Str :=
  scanFirst (anchored pat.data (fun r =>
    match r.dropWhile (· != '\n') with
    | [] => none
    | _ :: rest => some (lazyUntil (stops.map (·.data)) rest))) t

/-! ## parseInsightForge (`Step4Report.vue` 391–455 = `part_000` 373–437) -/

/-- Acceptance test for the remainder after the lazy group of
`^\d+\.\s*"?(.+?)"?\s*$`: an optional closing quote followed by whitespace
only. -/
def factTailOk (r : Str) : Bool :=
  r.all isWS || (r.headD ' ' == '"' && r.tail.all isWS)

/-- The lazy group of the fact-line pattern: smallest nonempty prefix whose
remainder passes `factTailOk` (the empty remainder always does, so this only
fails on the empty input). -/
def factGroup : Str → Option Str
  | [] => none
  | c :: cs => if factTailOk cs then some [c] else (factGroup cs).map (c :: ·)

/-- One fact line (lines 421–424): `l.match(/^\d+\.\s*"?(.+?)"?\s*$/)`, whose
group has a leading/trailing quote stripped; on failure the fallback
`l.replace(/^\d+\.\s*/, '').trim()`.  The greedy `\s*` backtracks by one
character when nothing follows it, and the optional opening quote is given
back when it would leave the group empty. -/
def insightFactLine (l : Str) : String :=
  let d := takeDigits l
  if !d.isEmpty && (l.drop d.length).headD ' ' == '.' then
    let r0 := l.drop (d.length + 1)
    let r1 := r0.dropWhile isWS
    match r1 with
    | [] =>
      match r0.getLast? with
      | some c => ⟨stripQuotes [c]⟩
      | none => jsTrimS (stripEnum l)
    | '"' :: rest =>
      match factGroup rest with
      | some g => ⟨stripQuotes g⟩
      | none => ⟨stripQuotes ['"']⟩
    | _ =>
      match factGroup r1 with
      | some g => ⟨stripQuotes g⟩
      | none => jsTrimS (stripEnum l)
  else jsTrimS (stripEnum l)

/-- Lines 412–416: analysed sub-questions. -/
def insightSubQueries (t : Str) : List String :=
  match anchorSection "### 分析的子问题\n" ["###", "\n\n###"] t with
  | some sec => (enumLines sec).map (fun l => jsTrimS (stripEnum l))
  | none => []

/-- Lines 418–425: key facts, capped at 10 by `.slice(0, 10)`. -/
def insightFacts (t : Str) : List String :=
  match anchorSectionAfterNL "### 【关键事实】" ["###"] t with
  | some sec => ((enumLines sec).map insightFactLine).take 10
  | none => []

/-- The shared suffix pattern `(.+?)\*\*\s*\((.+?)\)` of the entity matchers
(line 431 after the block split, line 489 after `-\s*\*\*`): the lazy name
group grows until a `**` is followed (after maximal whitespace — `(` is not
whitespace, so no backtracking) by a parenthesised lazy type group. -/
def entityHead (s : Str) : Option (Str × Str) :=
  lazyDot (fun r =>
    if "**".data.isPrefixOf r then
      match dropWS (r.drop 2) with
      | '(' :: r3 => (lazyDotThen ")".data r3).map (·.1)
      | _ => none
    else none) s

/-- Lines 427–437: core entities — the section is split on the literal
`"\n- **"`, the part before the first separator dropped, each block's head
parsed, entities with empty names dropped, capped at 8. -/
def insightEntities (t : Str) : List EntityRec :=
  match anchorSection "### 【核心实体】\n" ["###"] t with
  | some sec =>
    ((((splitOnSeq "\n- **".data sec).drop 1).map fun block =>
        match entityHead block with
        | some (n, ty) => EntityRec.mk (jsTrimS n) (jsTrimS ty)
        | none => EntityRec.mk "" "").filter (fun e => e.name != "")).take 8
  | none => []

/-- After `]-->` the tail `\s*(.+)$` (line 443): everything past the maximal
whitespace run; when that is empty the greedy `\s*` backtracks one character,
leaving a single-whitespace group; an empty remainder fails. -/
def relTail2 (r : Str) : Option Str :=
  if r.isEmpty then none
  else
    let g := dropWS r
    if g.isEmpty then r.getLast?.map (fun c => [c]) else some g

/-- `\s*--\[(.+?)\]-->…` of the relation pattern: maximal whitespace then the
literal `--[` (never starting inside the whitespace run), then the lazy
middle group up to a `]-->` whose own tail succeeds. -/
def relTail1 (r : Str) : Option (Str × Str) :=
  let r2 := dropWS r
  if "--[".data.isPrefixOf r2 then
    lazyDot (fun r3 =>
      if "]-->".data.isPrefixOf r3 then relTail2 (r3.drop 4) else none) (r2.drop 3)
  else none

/-- Backtracking of the `\s*` right after the dash: the maximal whitespace
run is tried first, then shorter prefixes, the lazy source group scanning
the remainder each time. -/
def relDashGo (r0 : Str) : Nat → Option (Str × (Str × Str))
  | 0 => lazyDot relTail1 r0
  | i + 1 =>
    match lazyDot relTail1 (r0.drop (i + 1)) with
    | some g => some g
    | none => relDashGo r0 i

/-- One relation line (line 443): `l.match(/^-\s*(.+?)\s*--\[(.+?)\]-->\s*(.+)$/)`. -/
def relLine (l : Str) : Option RelationRec :=
  match l with
  | '-' :: r0 =>
    (relDashGo r0 (r0.takeWhile isWS).length).map fun g =>
      RelationRec.mk (jsTrimS g.1) (jsTrimS g.2.1) (jsTrimS g.2.2)
  | _ => none

/-- Lines 439–449: relation chains — `-`-lines matched individually, failed
matches (`null`) dropped by `.filter(Boolean)`, capped at 6. -/
def insightRelations (t : Str) : List RelationRec :=
  match anchorSection "### 【关系链】\n" ["###"] t with
  | some sec =>
    (((splitLines sec).filter (fun l => l.headD ' ' == '-')).filterMap relLine).take 6
  | none => []

/-- The `try` body of `parseInsightForge` on a string argument (lines
391–455): every field is located independently; a missing anchor leaves the
default. -/
def insightCore (text : String) : InsightResult :=
  let t := text.data
  { query := anchorLineVal "原始问题:" t
    stats :=
      { facts := (anchorNatVal "相关事实:" t).getD 0
        entities := (anchorNatVal "涉及实体:" t).getD 0
        relationships := (anchorNatVal "关系链:" t).getD 0 }
    subQueries := insightSubQueries t
    facts := insightFacts t
    entities := insightEntities t
    relations := insightRelations t }

/-! ## parsePanorama (`Step4Report.vue` 457–499 = `part_000` 439–481) -/

/-- One panorama entity line (line 489):
`l.match(/^-\s*\*\*(.+?)\*\*\s*\((.+?)\)/)` — a dash, maximal whitespace
(`*` is not whitespace, so no backtracking), the literal `**`, then the
shared `entityHead` suffix. -/
def panoEntLine (l : Str) : Option EntityRec :=
  match l with
  | '-' :: r0 =>
    let r1 := dropWS r0
    if "**".data.isPrefixOf r1 then
      (entityHead (r1.drop 2)).map fun g => EntityRec.mk (jsTrimS g.1) (jsTrimS g.2)
    else none
  | _ => none

/-- The `try` body of `parsePanorama` on a string (lines 457–499).
`historicalFacts` is initialised empty and never assigned. -/
def panoramaCore (text : String) : PanoramaResult :=
  let t := text.data
  { query := anchorLineVal "查询:" t
    stats :=
      { nodes := (anchorNatVal "总节点数:" t).getD 0
        edges := (anchorNatVal "总边数:" t).getD 0
        activeFacts := (anchorNatVal "当前有效事实:" t).getD 0
        historicalFacts := (anchorNatVal "历史/过期事实:" t).getD 0 }
    activeFacts :=
      match anchorSectionAfterNL "### 【当前有效事实】" ["###"] t with
      | some sec =>
        ((enumLines sec).map (fun l => jsTrimS (stripQuotes (stripEnum l)))).take 8
      | none => []
    historicalFacts := []
    entities :=
      match anchorSection "### 【涉及实体】\n" ["###"] t with
      | some sec =>
        ((((splitLines sec).filter (fun l => l.headD ' ' == '-')).filterMap
          panoEntLine)).take 10
      | none => [] }

/-! ## parseQuickSearch (`Step4Report.vue` 630–654 = `part_000` 536–560) -/

/-- `text.match(/找到\s*(\d+)\s*条/)` (line 641): anchor, maximal
whitespace, digits, maximal whitespace, the literal `条`. -/
def quickCount (t : Str) : Option Nat :=
  scanFirst (anchored "找到".data (fun r =>
    let r1 := dropWS r
    let d := takeDigits r1
    if d.isEmpty then none
    else if "条".data.isPrefixOf (dropWS (r1.drop d.length)) then some (digitVal d)
    else none)) t

/-- The `try` body of `parseQuickSearch` on a string (lines 630–654); the
facts section `/### 相关事实:\n([\s\S]*)$/` runs to the end of the text. -/
def quickSearchCore (text : String) : QuickSearchResult :=
  let t := text.data
  { query := anchorLineVal "搜索查询:" t
    count := (quickCount t).getD 0
    facts :=
      match anchorSection "### 相关事实:\n" [] t with
      | some sec => ((enumLines sec).map (fun l => jsTrimS (stripEnum l))).take 10
      | none => [] }

/-! ## parseInterview (`Step4Report.vue` 501–628)

The `part_000` variant of this one extractor differs (different record shape,
quote cap of 2); the claims are settled against the `Step4Report.vue`
variant embedded here. -/

/-- Separator matcher for `text.split(/#### 采访 #\d+:/)` (line 532). -/
def ivSep (s : Str) : Option Nat :=
  if "#### 采访 #".data.isPrefixOf s then
    let r := s.drop "#### 采访 #".data.length
    let d := takeDigits r
    if !d.isEmpty && (r.drop d.length).headD ' ' == ':' then
      some ("#### 采访 #".data.length + d.length + 1)
    else none
  else none

/-- `block.match(/^(.+?)\n/)` (line 548): the nonempty run before the first
newline; fails when the block is empty, starts with a newline or has none. -/
def ivTitle (block : Str) : Option Str :=
  match block with
  | [] => none
  | c :: _ =>
    if c = '\n' then none
    else
      let g := block.takeWhile (· != '\n')
      if g.length = block.length then none else some g

/-- `block.match(/\*\*(.+?)\*\*\s*\((.+?)\)/)` (line 552): leftmost `**`
whose `entityHead` suffix succeeds. -/
def nameRole (block : Str) : Option (Str × Str) :=
  scanFirst (anchored "**".data entityHead) block

/-- `block.match(/_简介:\s*([\s\S]*?)_\n/)` (line 559): the stop literal
starts with `_`, never inside the whitespace run, so the greedy `\s*` is
committed; fails when no `_\n` follows. -/
def ivBio (block : Str) : Option Str :=
  scanFirst (anchored "_简介:".data (fun r =>
    lazyUntilNoEnd ["_\n".data] (dropWS r))) block

/-- `block.match(/\*\*Q:\*\*\s*([\s\S]*?)(?=\n\n\*\*A:\*\*|\*\*A:\*\*)/)`
(line 565).  A `\n\n**A:**` stop inside the whitespace run ends exactly two
characters before it, where the bare `**A:**` alternative fires instead, so
consuming the maximal run first is faithful; fails when no `**A:**`
follows. -/
def ivQText (block : Str) : Option Str :=
  scanFirst (anchored "**Q:**".data (fun r =>
    lazyUntilNoEnd ["\n\n**A:**".data, "**A:**".data] (dropWS r))) block

/-- Separator matcher for `qText.split(/\n\d+\.\s+/)` (line 569). -/
def qSep (s : Str) : Option Nat :=
  match s with
  | '\n' :: r =>
    let d := takeDigits r
    if d.isEmpty then none
    else
      match r.drop d.length with
      | '.' :: r2 =>
        let w := (r2.takeWhile isWS).length
        if w = 0 then none else some (1 + d.length + 1 + w)
      | _ => none
  | _ => none

/-- Backtracking of `\s+` in `qText.match(/^1\.\s+(.+)/)` (line 572): the
maximal whitespace run first, then shorter nonempty prefixes, until a
nonempty non-newline group starts. -/
def firstQBack (r : Str) : Nat → Option Str
  | 0 => none
  | i + 1 =>
    match r.drop (i + 1) with
    | [] => firstQBack r i
    | c :: cs => if c = '\n' then firstQBack r i else some ((c :: cs).takeWhile (· != '\n'))

/-- `qText.match(/^1\.\s+(.+)/)` (line 572). -/
def firstQ (qText : Str) : Option Str :=
  if "1.".data.isPrefixOf qText then
    let r := qText.drop 2
    let w := (r.takeWhile isWS).length
    if w = 0 then none else firstQBack r w
  else none

/-- Lines 567–578: the question list — split on `/\n\d+\.\s+/`, keep pieces
with nonempty trim; when the text itself starts with `1.` + whitespace the
first question is re-taken as the rest of that first line. -/
def ivQuestions (qText : Str) : List String :=
  let questions := (splitRe qSep qText).filter (fun q => !(jsTrim q).isEmpty)
  if questions.isEmpty then []
  else
    match firstQ qText with
    | some g => jsTrimS g :: (questions.drop 1).map jsTrimS
    | none => questions.map jsTrimS

/-- `block.match(/\*\*A:\*\*\s*([\s\S]*?)(?=\*\*关键引言|$)/)` (line 582). -/
def ivAnswer (block : Str) : Option Str :=
  scanFirst (anchored "**A:**".data (fun r =>
    some (lazyUntil ["**关键引言".data] (dropWS r)))) block

/-- JS `\n?`: consume one newline if present. -/
def dropNL1 : Str → Str
  | '\n' :: r => r
  | s => s

/-- `answerText.match(/【Twitter平台回答】\n?([\s\S]*?)(?=【Reddit平台回答】|$)/)`
(line 587). -/
def twitterPart (a : Str) : Option Str :=
  scanFirst (anchored "【Twitter平台回答】".data (fun r =>
    some (lazyUntil ["【Reddit平台回答】".data] (dropNL1 r)))) a

/-- `answerText.match(/【Reddit平台回答】\n?([\s\S]*?)$/)` (line 588): the
lazy group is forced to the end of the input. -/
def redditPart (a : Str) : Option Str :=
  scanFirst (anchored "【Reddit平台回答】".data (fun r => some (dropNL1 r))) a

/-- `block.match(/\*\*关键引言:\*\*\n([\s\S]*?)(?=\n---|\n####|$)/)`
(line 604). -/
def ivQuotesText (block : Str) : Option Str :=
  scanFirst (anchored "**关键引言:**\n".data (fun r =>
    some (lazyUntil ["\n---".data, "\n####".data] r))) block

/-- One match of `/> "([^"]+)"/g` combined with the per-match
`q.replace(/^> "|"$/g, '').trim()` (lines 607–609): the quote body. -/
def quoteStep (s : Str) : Option (Str × Nat) :=
  if "> \"".data.isPrefixOf s then
    let r := s.drop 3
    let inner := r.takeWhile (· != '"')
    if inner.isEmpty then none
    else if (r.drop inner.length).headD ' ' == '"' then
      some (inner, 3 + inner.length + 1)
    else none
  else none

/-- Lines 534–616: one interview block (the text following its
`#### 采访 #N:` separator), `num` being the 1-based block position.  The
`bio` post-processing `replace(/\.\.\.$/, '...')` replaces a trailing
ellipsis with itself and is omitted as the identity. -/
def ivBlock (idx : Nat) (block : Str) : InterviewRec :=
  let title := match ivTitle block with | some g => jsTrimS g | none => ""
  let nr := match nameRole block with
    | some g => (jsTrimS g.1, jsTrimS g.2)
    | none => ("", "")
  let bio := match ivBio block with | some g => jsTrimS g | none => ""
  let questions := match ivQText block with
    | some g => ivQuestions (jsTrim g)
    | none => []
  let answers := match ivAnswer block with
    | some g =>
      let a := jsTrim g
      match twitterPart a, redditPart a with
      | some tg, some rg => (jsTrimS tg, jsTrimS rg)
      | some tg, none => (jsTrimS tg, "")
      | none, some rg => ("", jsTrimS rg)
      | none, none => (⟨a⟩, "")
    | none => ("", "")
  let quotes := match ivQuotesText block with
    | some qt => (gscan quoteStep qt).map jsTrimS
    | none => []
  { num := idx + 1, title := title, name := nr.1, role := nr.2, bio := bio,
    questions := questions, twitterAnswer := answers.1,
    redditAnswer := answers.2, quotes := quotes }

/-- The `try` body of `parseInterview` on a string (lines 501–628): records
missing both identity fields (`name` and `title`) are dropped. -/
def interviewCore (text : String) : InterviewResult :=
  let t := text.data
  let blocks := (splitRe ivSep t).drop 1
  let cnt := scanFirst (anchored "**采访人数:**".data (fun r =>
    let d1 := takeDigits (dropWS r)
    if d1.isEmpty then none
    else
      match dropWS ((dropWS r).drop d1.length) with
      | '/' :: r3 =>
        let d2 := takeDigits (dropWS r3)
        if d2.isEmpty then none else some (d1, d2)
      | _ => none)) t
  { topic := anchorLineVal "**采访主题:**" t
    agentCount := match cnt with
      | some g => String.mk g.1 ++ " / " ++ String.mk g.2
      | none => ""
    successCount := match cnt with | some g => digitVal g.1 | none => 0
    totalCount := match cnt with | some g => digitVal g.2 | none => 0
    selectionReason :=
      match scanFirst (anchored "### 采访对象选择理由\n".data
          (lazyUntilNoEnd ["\n---\n".data, "\n### 采访实录".data])) t with
      | some g => jsTrimS g
      | none => ""
    interviews :=
      (blocks.enum.map (fun p => ivBlock p.1 p.2)).filter
        (fun iv => iv.name != "" || iv.title != "")
    summary :=
      match anchorSection "### 采访摘要与核心观点\n" [] t with
      | some g => jsTrimS g
      | none => "" }

/-! ## The extractors as called, with the top-level `try`/`catch`

A tool-result payload reaching an extractor is normally a string; on any
non-string (null, undefined, a number, …) the first statement of each
`try` block — a `.match` call on the argument — throws a `TypeError`
before any result field has been assigned.  On a string no operation of the
bodies throws: `match`, `matchAll`, `split`, `replace`, `trim`,
`startsWith`, `substring`, `slice`, `parseInt` and array methods are total
on strings.  `Except.error r` models an exception escaping the `try` block
while the mutable `result` record holds `r`; the `catch` only logs and
falls through to `return result`. -/

inductive JSVal
  | str (s : String)
  | nonString

/-- The `try` block of `parseInsightForge`. -/
def insightBody : JSVal → Except InsightResult InsightResult
  | .str s => .ok (insightCore s)
  | .nonString => .error emptyInsight

/-- `parseInsightForge` (lines 391–455). -/
def parseInsightForge (v : JSVal) : InsightResult :=
  match insightBody v with
  | .ok r => r
  | .error r => r

/-- The `try` block of `parsePanorama`. -/
def panoramaBody : JSVal → Except PanoramaResult PanoramaResult
  | .str s => .ok (panoramaCore s)
  | .nonString => .error emptyPanorama

/-- `parsePanorama` (lines 457–499). -/
def parsePanorama (v : JSVal) : PanoramaResult :=
  match panoramaBody v with
  | .ok r => r
  | .error r => r

/-- The `try` block of `parseInterview`. -/
def interviewBody : JSVal → Except InterviewResult InterviewResult
  | .str s => .ok (interviewCore s)
  | .nonString => .error emptyInterview

/-- `parseInterview` (lines 501–628). -/
def parseInterview (v : JSVal) : InterviewResult :=
  match interviewBody v with
  | .ok r => r
  | .error r => r

/-- The `try` block of `parseQuickSearch`. -/
def quickSearchBody : JSVal → Except QuickSearchResult QuickSearchResult
  | .str s => .ok (quickSearchCore s)
  | .nonString => .error emptyQuickSearch

/-- `parseQuickSearch` (lines 630–654). -/
def parseQuickSearch (v : JSVal) : QuickSearchResult :=
  match quickSearchBody v with
  | .ok r => r
  | .error r => r

/-! ## renderMarkdown (`Step4Report.vue` 1109–1159 = `part_000` 848–898)

The renderer is a fixed sequence of global substitution passes.  Passes with
`gm`-flagged line anchors (`^…$`) and `.` (which excludes newlines) operate
line by line and are embedded through `mapLines`; the remaining global
replaces are embedded through `gsub`. -/

def mapLines (f : Str → Str) (s : Str) : Str := joinLines ((splitLines s).map f)

/-- Line 1113: ``/```(\w*)\n([\s\S]*?)```/g`` → pre/code wrapper; the match
needs a newline after the language tag and a closing fence. -/
def codeBlockStep (s : Str) : Option (Str × Nat) :=
  if "\x60\x60\x60".data.isPrefixOf s then
    let r := s.drop 3
    let lang := r.takeWhile isWordCh
    match r.drop lang.length with
    | '\n' :: r2 =>
      (lazyUntilNoEnd ["\x60\x60\x60".data] r2).map fun body =>
        ("<pre class=\"code-block\"><code>".data ++ body ++ "</code></pre>".data,
          3 + lang.length + 1 + body.length + 3)
    | _ => none
  else none

/-- Line 1116: ``/`([^`]+)`/g`` → inline-code wrapper. -/
def inlineCodeStep (s : Str) : Option (Str × Nat) :=
  match s with
  | '\x60' :: r =>
    let inner := r.takeWhile (· != '\x60')
    if inner.isEmpty then none
    else if (r.drop inner.length).headD ' ' == '\x60' then
      some ("<code class=\"inline-code\">".data ++ inner ++ "</code>".data,
        inner.length + 2)
    else none
  | _ => none

/-- Lines 1119–1122: one `^#+ (.+)$` heading level. -/
def headingLine (marker op cl : String) (l : Str) : Str :=
  if (marker ++ " ").data.isPrefixOf l then
    let rest := l.drop (marker.data.length + 1)
    if rest.isEmpty then l else op.data ++ rest ++ cl.data
  else l

/-- Line 1125: `^> (.+)$` block quotes. -/
def quoteLine (l : Str) : Str :=
  if "> ".data.isPrefixOf l then
    let rest := l.drop 2
    if rest.isEmpty then l
    else "<blockquote class=\"md-quote\">".data ++ rest ++ "</blockquote>".data
  else l

/-- Line 1128: `^- (.+)$` unordered list items. -/
def uliLine (l : Str) : Str :=
  if "- ".data.isPrefixOf l then
    let rest := l.drop 2
    if rest.isEmpty then l
    else "<li class=\"md-li\">".data ++ rest ++ "</li>".data
  else l

/-- Line 1133: `^\d+\. (.+)$` ordered list items (a literal space follows
the dot). -/
def oliLine (l : Str) : Str :=
  let d := takeDigits l
  if d.isEmpty then l
  else if ". ".data.isPrefixOf (l.drop d.length) then
    let rest := l.drop (d.length + 2)
    if rest.isEmpty then l
    else "<li class=\"md-oli\">".data ++ rest ++ "</li>".data
  else l

/-- Lines 1130/1134: `(<li class="…">.*<\/li>)+` → wrap in a list
container.  `.` excludes newlines, so a match lies inside one line; at the
leftmost open tag the greedy repetition reaches the end of the last `</li>`
on the line (no match when no `</li>` follows the open tag), so each line
gets at most one wrap. -/
def wrapRun (openTag wrapOpen wrapClose : String) (l : Str) : Str :=
  match firstIdxOfSeq openTag.data l with
  | none => l
  | some p =>
    let rest := l.drop p
    let afterOpen := rest.drop openTag.data.length
    match lastEndOfSeq "</li>".data afterOpen with
    | none => l
    | some e =>
      l.take p ++ wrapOpen.data ++ rest.take (openTag.data.length + e)
        ++ wrapClose.data ++ afterOpen.drop e

/-- Line 1137: `/\*\*(.+?)\*\*/g` bold. -/
def boldStep (s : Str) : Option (Str × Nat) :=
  if "**".data.isPrefixOf s then
    (lazyDotThen "**".data (s.drop 2)).map fun g =>
      ("<strong>".data ++ g.1 ++ "</strong>".data, 2 + g.1.length + 2)
  else none

/-- Line 1138: `/\*(.+?)\*/g` italics. -/
def emStarStep (s : Str) : Option (Str × Nat) :=
  match s with
  | '*' :: r =>
    (lazyDotThen "*".data r).map fun g =>
      ("<em>".data ++ g.1 ++ "</em>".data, 1 + g.1.length + 1)
  | _ => none

/-- Line 1139: `/_(.+?)_/g` italics, underscore spelling. -/
def emUnderStep (s : Str) : Option (Str × Nat) :=
  match s with
  | '_' :: r =>
    (lazyDotThen "_".data r).map fun g =>
      ("<em>".data ++ g.1 ++ "</em>".data, 1 + g.1.length + 1)
  | _ => none

/-- Line 1142: `^---$` horizontal rules. -/
def hrLine (l : Str) : Str :=
  if l = "---".data then "<hr class=\"md-hr\">".data else l

/-- Line 1145: `\n\n` → paragraph break. -/
def paraBreakStep (s : Str) : Option (Str × Nat) :=
  if "\n\n".data.isPrefixOf s then some ("</p><p class=\"md-p\">".data, 2) else none

/-- Line 1146: `\n` → `<br>`. -/
def brStep : Str → Option (Str × Nat)
  | '\n' :: _ => some ("<br>".data, 1)
  | _ => none

/-- Line 1152: remove `<p class="md-p"></p>`. -/
def emptyParaStep (s : Str) : Option (Str × Nat) :=
  if "<p class=\"md-p\"></p>".data.isPrefixOf s then
    some ([], "<p class=\"md-p\"></p>".data.length)
  else none

/-- Line 1153: `<p class="md-p">(<h[2-5])` → `$1`. -/
def pOpenHeadStep (s : Str) : Option (Str × Nat) :=
  if "<p class=\"md-p\"><h".data.isPrefixOf s then
    match s.drop "<p class=\"md-p\"><h".data.length with
    | c :: _ =>
      if c == '2' || c == '3' || c == '4' || c == '5' then
        some ("<h".data ++ [c], "<p class=\"md-p\"><h".data.length + 1)
      else none
    | [] => none
  else none

/-- Line 1154: `(<\/h[2-5]>)<\/p>` → `$1`. -/
def hClosePStep (s : Str) : Option (Str × Nat) :=
  if "</h".data.isPrefixOf s then
    match s.drop 3 with
    | c :: r =>
      if (c == '2' || c == '3' || c == '4' || c == '5')
          && "></p>".data.isPrefixOf r then
        some ("</h".data ++ [c] ++ ">".data, 9)
      else none
    | [] => none
  else none

/-- Line 1155: `<p class="md-p">(<ul|<ol|<blockquote|<pre|<hr)` → `$1`
(the alternatives never overlap). -/
def pOpenBlockStep (s : Str) : Option (Str × Nat) :=
  if "<p class=\"md-p\">".data.isPrefixOf s then
    let r := s.drop "<p class=\"md-p\">".data.length
    match ["<ul", "<ol", "<blockquote", "<pre", "<hr"].find?
        (fun tag => tag.data.isPrefixOf r) with
    | some tag => some (tag.data, "<p class=\"md-p\">".data.length + tag.data.length)
    | none => none
  else none

/-- Line 1156: `(<\/ul>|<\/ol>|<\/blockquote>|<\/pre>)<\/p>` → `$1`. -/
def blockClosePStep (s : Str) : Option (Str × Nat) :=
  match ["</ul>", "</ol>", "</blockquote>", "</pre>"].find?
      (fun tag => tag.data.isPrefixOf s
        && "</p>".data.isPrefixOf (s.drop tag.data.length)) with
  | some tag => some (tag.data, tag.data.length + 4)
  | none => none

/-- `renderMarkdown` (lines 1109–1159), the passes in source order.  The
adjacent-item pass at line 1129,
`replace(/(<li class="md-li">[\s\S]*?<\/li>)(\s*<li)/g, '$1$2')`, replaces
every match by its own two capture groups, which partition the match
exactly; it is the identity on every input and is embedded as such. -/
def renderMarkdown (content : String) : String :=
  if content = "" then ""
  else
    let s1 := gsub codeBlockStep content.data
    let s2 := gsub inlineCodeStep s1
    let s3 := mapLines (headingLine "####" "<h5 class=\"md-h5\">" "</h5>") s2
    let s4 := mapLines (headingLine "###" "<h4 class=\"md-h4\">" "</h4>") s3
    let s5 := mapLines (headingLine "##" "<h3 class=\"md-h3\">" "</h3>") s4
    let s6 := mapLines (headingLine "#" "<h2 class=\"md-h2\">" "</h2>") s5
    let s7 := mapLines quoteLine s6
    let s8 := mapLines uliLine s7
    let s9 := s8
    let s10 := mapLines (wrapRun "<li class=\"md-li\">" "<ul class=\"md-ul\">" "</ul>") s9
    let s11 := mapLines oliLine s10
    let s12 := mapLines (wrapRun "<li class=\"md-oli\">" "<ol class=\"md-ol\">" "</ol>") s11
    let s13 := gsub boldStep s12
    let s14 := gsub emStarStep s13
    let s15 := gsub emUnderStep s14
    let s16 := mapLines hrLine s15
    let s17 := gsub paraBreakStep s16
    let s18 := gsub brStep s17
    let s19 := "<p class=\"md-p\">".data ++ s18 ++ "</p>".data
    let s20 := gsub emptyParaStep s19
    let s21 := gsub pOpenHeadStep s20
    let s22 := gsub hClosePStep s21
    let s23 := gsub pOpenBlockStep s22
    ⟨gsub blockClosePStep s23⟩

/-- Number of occurrences of a pattern (used to count rendered list
containers). -/
def seqCount (pat : Str) : Str → Nat
  | [] => 0
  | c :: cs => (if pat.isPrefixOf (c :: cs) then 1 else 0) + seqCount pat cs

/-! ## Component state, event reducer, fetchers, reset
(`Step4Report.vue` 314–330, 1034–1045, 1215–1277, 1324–1347, 1382–1399;
same logic at the corresponding `part_000` lines) -/

structure OutlineSec where
  title : String
deriving DecidableEq

/-- The `details.outline` payload stored verbatim by the reducer
(`{title, summary, sections}` per the consumed wire format). -/
structure Outline where
  title : String
  summary : String
  sections : List OutlineSec
deriving DecidableEq

/-- The `details` fields the reducer reads.  An object-valued `outline` is
always truthy; `content` is falsy when absent or the empty string. -/
structure EntryDetails where
  outline : Option Outline
  content : Option String
deriving DecidableEq

structure LogEntry where
  timestamp : Nat
  action : String
  sectionIdx : Option Int
  details : Option EntryDetails
deriving DecidableEq

def contentOf (e : LogEntry) : Option String := e.details.bind (·.content)

def outlineOf (e : LogEntry) : Option Outline := e.details.bind (·.outline)

/-- JS object key write `obj[k] = v`: overwrite an existing key or append a
new one (key order = insertion order, as `Object.keys` reports it).  The
`none` key models the `"undefined"` key produced by an absent
`section_index`. -/
def setKey (m : List (Option Int × String)) (k : Option Int) (v : String) :
    List (Option Int × String) :=
  if m.any (fun p => p.1 == k) then
    m.map (fun p => if p.1 == k then (k, v) else p)
  else m ++ [(k, v)]

def lookupKey (m : List (Option Int × String)) (k : Option Int) : Option String :=
  (m.find? (fun p => p.1 == k)).map (·.2)

/-- JS `Set.prototype.add`. -/
def setAdd (s : List (Option Int)) (x : Option Int) : List (Option Int) :=
  if x ∈ s then s else s ++ [x]

/-- `showRawResult[t] = !showRawResult[t]` (lines 333–335): a missing key is
`undefined`, so the first toggle stores `true`. -/
def toggleRaw (m : List (Nat × Bool)) (t : Nat) : List (Nat × Bool) :=
  let cur := (((m.find? (fun p => p.1 == t)).map (·.2)).getD false)
  if m.any (fun p => p.1 == t) then
    m.map (fun p => if p.1 == t then (t, !cur) else p)
  else m ++ [(t, !cur)]

/-- The reactive refs of lines 315–330 that constitute one viewing session's
state (the three DOM element refs are excluded).  `expandedContent` holds
`section_index - 1` values, `none` modelling the `NaN` member produced by an
absent index. -/
structure CompState where
  agentLogs : List LogEntry
  consoleLogs : List String
  agentLogLine : Nat
  consoleLogLine : Nat
  reportOutline : Option Outline
  currentSectionIndex : Option Int
  generatedSections : List (Option Int × String)
  expandedContent : List (Option Int)
  expandedLogs : List Nat
  collapsedSections : List Int
  isComplete : Bool
  startTime : Option Nat
  showRawResult : List (Nat × Bool)
deriving DecidableEq

/-- The initial values of lines 315–330. -/
def initState : CompState :=
  ⟨[], [], 0, 0, none, none, [], [], [], [], false, none, []⟩

/-- The per-entry body of the `newLogs.forEach` in `fetchAgentLog` (lines
1225–1262): push the entry, then the action-conditional mutations, each an
independent `if`.  DOM scrolling, the `update-status` emit and
`stopPolling` are effects outside this state. -/
def applyAgentEntry (s : CompState) (e : LogEntry) : CompState :=
  let s1 := { s with agentLogs := s.agentLogs ++ [e] }
  let s2 :=
    if e.action = "planning_complete" then
      match outlineOf e with
      | some o => { s1 with reportOutline := some o }
      | none => s1
    else s1
  let s3 :=
    if e.action = "section_start" then
      { s2 with currentSectionIndex := e.sectionIdx }
    else s2
  let s4 :=
    if e.action = "section_complete" then
      let sw :=
        match contentOf e with
        | some c =>
          if c ≠ "" then
            { s3 with
              generatedSections := setKey s3.generatedSections e.sectionIdx c
              expandedContent := setAdd s3.expandedContent (e.sectionIdx.map (· - 1)) }
          else s3
        | none => s3
      { sw with currentSectionIndex := none }
    else s3
  let s5 := if e.action = "report_complete" then { s4 with isComplete := true } else s4
  if e.action = "report_start" then { s5 with startTime := some e.timestamp } else s5

/-- JS truthiness of the `reportId` prop (`if (!props.reportId) return`). -/
def jsTruthyStr : Option String → Bool
  | some s => s != ""
  | none => false

/-- The outcome of one poll as the fetcher sees it: `fail` covers a thrown
transport error, `success: false` and a missing `data`; a null `res.data.logs`
is `ok [] _`. -/
inductive PollOutcome (α : Type)
  | fail
  | ok (logs : List α) (fromLine : Nat)

/-- `fetchAgentLog` (lines 1215–1277) applied to one poll response: with new
entries, each is folded by `applyAgentEntry` in order and the cursor is set
to `res.data.from_line + newLogs.length`; otherwise nothing changes. -/
def fetchAgentLogStep (reportId : Option String) (s : CompState)
    (r : PollOutcome LogEntry) : CompState :=
  if !jsTruthyStr reportId then s
  else
    match r with
    | .fail => s
    | .ok newLogs fromLine =>
      if newLogs.length > 0 then
        let s' := newLogs.foldl applyAgentEntry s
        { s' with agentLogLine := fromLine + newLogs.length }
      else s

/-- `fetchConsoleLog` (lines 1324–1347) applied to one poll response. -/
def fetchConsoleLogStep (reportId : Option String) (s : CompState)
    (r : PollOutcome String) : CompState :=
  if !jsTruthyStr reportId then s
  else
    match r with
    | .fail => s
    | .ok newLogs fromLine =>
      if newLogs.length > 0 then
        { s with
          consoleLogs := s.consoleLogs ++ newLogs
          consoleLogLine := fromLine + newLogs.length }
      else s

/-- The `watch(() => props.reportId, …)` body (lines 1382–1399) for a truthy
new id: the twelve listed refs are reassigned their initial values
(`startPolling` is a timer effect outside the state).  `showRawResult`
(line 330) is not among them. -/
def resetOnReportId (s : CompState) : CompState :=
  { s with
    agentLogs := [], consoleLogs := [], agentLogLine := 0, consoleLogLine := 0,
    reportOutline := none, currentSectionIndex := none, generatedSections := [],
    expandedContent := [], expandedLogs := [], collapsedSections := [],
    isComplete := false, startTime := none }

/-- `toggleRawResult` (lines 333–335). -/
def toggleRawResult (s : CompState) (t : Nat) : CompState :=
  { s with showRawResult := toggleRaw s.showRawResult t }

/-- `totalSections` (lines 1034–1036): `reportOutline.value?.sections?.length || 0`. -/
def totalSections (s : CompState) : Nat :=
  match s.reportOutline with
  | some o => o.sections.length
  | none => 0

/-- `completedSections` (lines 1038–1040): `Object.keys(generatedSections).length`
(`setKey` keeps keys unique, so the list length is the key count). -/
def completedSections (s : CompState) : Nat := s.generatedSections.length

/-- `progressPercent` (lines 1042–1045): `0` for an empty outline, otherwise
`Math.round((completed / total) * 100)`; on the rationals these counts form,
`Math.round x = ⌊x + 1/2⌋`, which is Mathlib's `round`. -/
def progressPercent (s : CompState) : Int :=
  if totalSections s = 0 then 0
  else round ((completedSections s : ℚ) / (totalSections s : ℚ) * 100)

/-! ## Supporting lemmas -/

set_option maxRecDepth 100000

theorem scanFirst_anchored_none {α : Type} (pat : Str) (f : Str → Option α) (s : Str)
    (h : hasSeq pat s = false) : scanFirst (anchored pat f) s = none := by
  induction s with
  | nil =>
    simp only [hasSeq] at h
    simp [scanFirst, anchored, h]
  | cons c cs ih =>
    simp only [hasSeq, Bool.or_eq_false_iff] at h
    simp [scanFirst, anchored, h.1, ih h.2]

theorem anchorLineVal_none (pat : String) (t : Str) (h : hasSeq pat.data t = false) :
    anchorLineVal pat t = "" := by
  simp [anchorLineVal, scanFirst_anchored_none pat.data wsLineTail t h]

theorem anchorNatVal_none (pat : String) (t : Str) (h : hasSeq pat.data t = false) :
    anchorNatVal pat t = none :=
  scanFirst_anchored_none _ _ _ h

theorem anchorSection_none (pat : String) (stops : List String) (t : Str)
    (h : hasSeq pat.data t = false) : anchorSection pat stops t = none :=
  scanFirst_anchored_none _ _ _ h

theorem anchorSectionAfterNL_none (pat : String) (stops : List String) (t : Str)
    (h : hasSeq pat.data t = false) : anchorSectionAfterNL pat stops t = none :=
  scanFirst_anchored_none _ _ _ h

theorem splitReF_ivSep_single (f : Nat) (t : Str)
    (h : hasSeq "#### 采访 #".data t = false) : splitReF ivSep f t = [t] := by
  induction f generalizing t with
  | zero => cases t <;> simp [splitReF]
  | succ f ih =>
    cases t with
    | nil => simp [splitReF]
    | cons c cs =>
      simp only [hasSeq, Bool.or_eq_false_iff] at h
      simp [splitReF, ivSep, h.1, ih cs h.2]

theorem splitRe_ivSep_single (t : Str) (h : hasSeq "#### 采访 #".data t = false) :
    splitRe ivSep t = [t] :=
  splitReF_ivSep_single t.length t h

/-- The anchor literals whose absence leaves every `parseInsightForge` field
at its default. -/
def insightAnchors : List String :=
  ["原始问题:", "相关事实:", "涉及实体:", "关系链:", "### 分析的子问题\n",
   "### 【关键事实】", "### 【核心实体】\n", "### 【关系链】\n"]

def panoramaAnchors : List String :=
  ["查询:", "总节点数:", "总边数:", "当前有效事实:", "历史/过期事实:",
   "### 【当前有效事实】", "### 【涉及实体】\n"]

def interviewAnchors : List String :=
  ["**采访主题:**", "**采访人数:**", "### 采访对象选择理由\n", "#### 采访 #",
   "### 采访摘要与核心观点\n"]

def quickSearchAnchors : List String := ["搜索查询:", "找到", "### 相关事实:\n"]

theorem insightCore_default (text : String)
    (h : insightAnchors.all (fun a => !containsTok a text) = true) :
    insightCore text = emptyInsight := by
  simp only [insightAnchors, List.all_cons, List.all_nil, Bool.and_eq_true,
    Bool.not_eq_true', containsTok, and_true] at h
  obtain ⟨h1, h2, h3, h4, h5, h6, h7, h8⟩ := h
  simp [insightCore, emptyInsight, insightSubQueries, insightFacts,
    insightEntities, insightRelations,
    anchorLineVal_none _ _ h1, anchorNatVal_none _ _ h2, anchorNatVal_none _ _ h3,
    anchorNatVal_none _ _ h4, anchorSection_none _ _ _ h5,
    anchorSectionAfterNL_none _ _ _ h6, anchorSection_none _ _ _ h7,
    anchorSection_none _ _ _ h8]

theorem panoramaCore_default (text : String)
    (h : panoramaAnchors.all (fun a => !containsTok a text) = true) :
    panoramaCore text = emptyPanorama := by
  simp only [panoramaAnchors, List.all_cons, List.all_nil, Bool.and_eq_true,
    Bool.not_eq_true', containsTok, and_true] at h
  obtain ⟨h1, h2, h3, h4, h5, h6, h7⟩ := h
  simp [panoramaCore, emptyPanorama,
    anchorLineVal_none _ _ h1, anchorNatVal_none _ _ h2, anchorNatVal_none _ _ h3,
    anchorNatVal_none _ _ h4, anchorNatVal_none _ _ h5,
    anchorSectionAfterNL_none _ _ _ h6, anchorSection_none _ _ _ h7]

theorem interviewCore_default (text : String)
    (h : interviewAnchors.all (fun a => !containsTok a text) = true) :
    interviewCore text = emptyInterview := by
  simp only [interviewAnchors, List.all_cons, List.all_nil, Bool.and_eq_true,
    Bool.not_eq_true', containsTok, and_true] at h
  obtain ⟨h1, h2, h3, h4, h5⟩ := h
  simp [interviewCore, emptyInterview,
    anchorLineVal_none _ _ h1,
    scanFirst_anchored_none "**采访人数:**".data _ _ h2,
    scanFirst_anchored_none "### 采访对象选择理由\n".data _ _ h3,
    splitRe_ivSep_single _ h4,
    anchorSection_none _ _ _ h5]

theorem quickSearchCore_default (text : String)
    (h : quickSearchAnchors.all (fun a => !containsTok a text) = true) :
    quickSearchCore text = emptyQuickSearch := by
  simp only [quickSearchAnchors, List.all_cons, List.all_nil, Bool.and_eq_true,
    Bool.not_eq_true', containsTok, and_true] at h
  obtain ⟨h1, h2, h3⟩ := h
  simp [quickSearchCore, emptyQuickSearch, quickCount,
    anchorLineVal_none _ _ h1,
    scanFirst_anchored_none "找到".data _ _ h2,
    anchorSection_none _ _ _ h3]

theorem insightFacts_le (t : Str) : (insightFacts t).length ≤ 10 := by
  rcases h : anchorSectionAfterNL "### 【关键事实】" ["###"] t with _ | sec <;>
    simp [insightFacts, h, List.length_take]

theorem insightEntities_le (t : Str) : (insightEntities t).length ≤ 8 := by
  rcases h : anchorSection "### 【核心实体】\n" ["###"] t with _ | sec <;>
    simp [insightEntities, h, List.length_take]

theorem insightRelations_le (t : Str) : (insightRelations t).length ≤ 6 := by
  rcases h : anchorSection "### 【关系链】\n" ["###"] t with _ | sec <;>
    simp [insightRelations, h, List.length_take]

theorem panoramaActiveFacts_le (t : String) : (panoramaCore t).activeFacts.length ≤ 8 := by
  rcases h : anchorSectionAfterNL "### 【当前有效事实】" ["###"] t.data with _ | sec <;>
    simp [panoramaCore, h, List.length_take]

theorem panoramaEntities_le (t : String) : (panoramaCore t).entities.length ≤ 10 := by
  rcases h : anchorSection "### 【涉及实体】\n" ["###"] t.data with _ | sec <;>
    simp [panoramaCore, h, List.length_take]

theorem quickFacts_le (t : String) : (quickSearchCore t).facts.length ≤ 10 := by
  rcases h : anchorSection "### 相关事实:\n" [] t.data with _ | sec <;>
    simp [quickSearchCore, h, List.length_take]

theorem lookupKey_cons (x : Option Int × String) (l : List (Option Int × String))
    (k : Option Int) :
    lookupKey (x :: l) k = if x.1 == k then some x.2 else lookupKey l k := by
  by_cases h : x.1 == k <;> simp [lookupKey, List.find?, h]

theorem lookupKey_setKey_map (m : List (Option Int × String)) (k : Option Int) (v : String)
    (hm : m.any (fun q => q.1 == k) = true) :
    lookupKey (m.map (fun p => if p.1 == k then ((k, v) : Option Int × String) else p)) k =
      some v := by
  induction m with
  | nil => simp at hm
  | cons p m ih =>
    by_cases hp : p.1 = k
    · simp [List.map_cons, hp, lookupKey_cons]
    · simp only [List.any_cons, Bool.or_eq_true, beq_iff_eq] at hm
      rcases hm with h | h
      · exact absurd h hp
      · have hrec := ih (by simpa using h)
        simp only [beq_iff_eq] at hrec
        simp [List.map_cons, hp, lookupKey_cons, hrec]

theorem lookupKey_append_single (m : List (Option Int × String)) (k : Option Int)
    (v : String) (hm : m.any (fun q => q.1 == k) = false) :
    lookupKey (m ++ [(k, v)]) k = some v := by
  induction m with
  | nil => simp [lookupKey_cons, lookupKey]
  | cons p m ih =>
    simp only [List.any_cons, Bool.or_eq_false_iff] at hm
    simp [List.cons_append, lookupKey_cons, hm.1, ih hm.2]

theorem lookupKey_setKey (m : List (Option Int × String)) (k : Option Int) (v : String) :
    lookupKey (setKey m k v) k = some v := by
  unfold setKey
  by_cases hm : m.any (fun q => q.1 == k) = true
  · simpa [hm] using lookupKey_setKey_map m k v hm
  · simp only [Bool.not_eq_true] at hm
    simpa [hm] using lookupKey_append_single m k v hm

theorem mem_setAdd (s : List (Option Int)) (x : Option Int) : x ∈ setAdd s x := by
  by_cases h : x ∈ s <;> simp [setAdd, h]

/-- `okCount` of a poll trace: the total number of entries delivered by its
successful responses. -/
def okCount {α : Type} : List (PollOutcome α) → Nat
  | [] => 0
  | .ok logs _ :: rs => logs.length + okCount rs
  | .fail :: rs => okCount rs

/-- The server contract of §6 for a trace of agent-log responses: every
successful response's `from_line` equals the cursor the client holds when
that response is processed. -/
def agentTraceWF (reportId : Option String) :
    CompState → List (PollOutcome LogEntry) → Bool
  | _, [] => true
  | s, r :: rs =>
    (match r with
     | .ok _ fl => fl == s.agentLogLine
     | .fail => true)
    && agentTraceWF reportId (fetchAgentLogStep reportId s r) rs

/-- The same contract for console-log responses. -/
def consoleTraceWF (reportId : Option String) :
    CompState → List (PollOutcome String) → Bool
  | _, [] => true
  | s, r :: rs =>
    (match r with
     | .ok _ fl => fl == s.consoleLogLine
     | .fail => true)
    && consoleTraceWF reportId (fetchConsoleLogStep reportId s r) rs

theorem agent_cursor_sum (reportId : Option String) (hid : jsTruthyStr reportId = true)
    (rs : List (PollOutcome LogEntry)) (s : CompState)
    (h : agentTraceWF reportId s rs = true) :
    (rs.foldl (fetchAgentLogStep reportId) s).agentLogLine =
      s.agentLogLine + okCount rs := by
  induction rs generalizing s with
  | nil => simp [okCount]
  | cons r rs ih =>
    simp only [agentTraceWF, Bool.and_eq_true] at h
    rw [List.foldl_cons, ih _ h.2]
    cases r with
    | fail => simp [okCount, fetchAgentLogStep, hid]
    | ok logs fl =>
      have hfl : fl = s.agentLogLine := by simpa using h.1
      subst hfl
      by_cases hl : logs.length > 0
      · simp [okCount, fetchAgentLogStep, hid, hl]; omega
      · have hnil : logs = [] := by
          cases logs with
          | nil => rfl
          | cons a as => simp at hl
        subst hnil
        simp [okCount, fetchAgentLogStep, hid]

theorem console_cursor_sum (reportId : Option String) (hid : jsTruthyStr reportId = true)
    (rs : List (PollOutcome String)) (s : CompState)
    (h : consoleTraceWF reportId s rs = true) :
    (rs.foldl (fetchConsoleLogStep reportId) s).consoleLogLine =
      s.consoleLogLine + okCount rs := by
  induction rs generalizing s with
  | nil => simp [okCount]
  | cons r rs ih =>
    simp only [consoleTraceWF, Bool.and_eq_true] at h
    rw [List.foldl_cons, ih _ h.2]
    cases r with
    | fail => simp [okCount, fetchConsoleLogStep, hid]
    | ok logs fl =>
      have hfl : fl = s.consoleLogLine := by simpa using h.1
      subst hfl
      by_cases hl : logs.length > 0
      · simp [okCount, fetchConsoleLogStep, hid, hl]; omega
      · have hnil : logs = [] := by
          cases logs with
          | nil => rfl
          | cons a as => simp at hl
        subst hnil
        simp [okCount, fetchConsoleLogStep, hid]

/-- How one reduced entry changes `reportOutline`: only a
`planning_complete` entry with a (truthy) `details.outline` touches it, and
it overwrites unconditionally. -/
theorem applyAgentEntry_outline (s : CompState) (e : LogEntry) :
    (applyAgentEntry s e).reportOutline =
      if e.action = "planning_complete" then
        match outlineOf e with
        | some o => some o
        | none => s.reportOutline
      else s.reportOutline := by
  unfold applyAgentEntry
  cases houd : outlineOf e <;>
    by_cases h1 : e.action = "planning_complete" <;>
      cases hc : contentOf e <;>
        simp [houd, h1, hc, apply_ite CompState.reportOutline]

/-! ## Claim theorems -/

/-- The outline carried by the last `planning_complete` entry of a stream
that has one with a present `details.outline` (`none` when no entry does). -/
def lastOutline : List LogEntry → Option Outline
  | [] => none
  | e :: es =>
    match lastOutline es with
    | some o => some o
    | none => if e.action = "planning_complete" then outlineOf e else none

/-- **C1 (amended)**: the ReportOutline is set from *every*
`planning_complete` entry whose `details.outline` is present —
last-write-wins, not first-write-wins: after folding any entry stream the
outline is the one carried by the last such entry (or the prior value when
there is none). -/
theorem outline_last_write_wins (es : List LogEntry) (s : CompState) :
    (es.foldl applyAgentEntry s).reportOutline =
      ((lastOutline es).map some).getD s.reportOutline := by
  induction es generalizing s with
  | nil => rfl
  | cons e es ih =>
    rw [List.foldl_cons, ih]
    cases h : lastOutline es with
    | some o => simp [lastOutline, h]
    | none =>
      simp only [lastOutline, h]
      rw [applyAgentEntry_outline]
      by_cases hp : e.action = "planning_complete"
      · simp only [hp, if_true]
        cases outlineOf e <;> simp
      · simp [hp]

def outlineA : Outline := ⟨"A", "sa", [⟨"s1"⟩]⟩

def outlineB : Outline := ⟨"B", "sb", [⟨"s1"⟩, ⟨"s2"⟩]⟩

def planEntryA : LogEntry := ⟨1, "planning_complete", none, some ⟨some outlineA, none⟩⟩

def planEntryB : LogEntry := ⟨2, "planning_complete", none, some ⟨some outlineB, none⟩⟩

/-- **C1 (counterexample)**: after the outline has been set by a first
`planning_complete` entry, folding a second `planning_complete` entry with a
different outline *changes* it — the claimed first-write-wins behaviour
fails at this concrete two-entry stream. -/
theorem outline_overwritten_cex :
    (applyAgentEntry (applyAgentEntry initState planEntryA) planEntryB).reportOutline
      ≠ (applyAgentEntry initState planEntryA).reportOutline := by decide

/-- **C2**: for every input on which an extractor's `try` body raises an
exception (any non-string payload; string payloads never throw), the
extractor returns the all-default empty record, and no exception escapes —
because every reachable throw happens at the body's very first `.match` call,
before any field of the result record has been assigned. -/
theorem extractor_exception_rollback (v : JSVal) :
    (∀ r, insightBody v = .error r → parseInsightForge v = emptyInsight) ∧
    (∀ r, panoramaBody v = .error r → parsePanorama v = emptyPanorama) ∧
    (∀ r, interviewBody v = .error r → parseInterview v = emptyInterview) ∧
    (∀ r, quickSearchBody v = .error r → parseQuickSearch v = emptyQuickSearch) := by
  cases v with
  | str s =>
    refine ⟨?_, ?_, ?_, ?_⟩ <;> intro r h <;>
      simp [insightBody, panoramaBody, interviewBody, quickSearchBody] at h
  | nonString =>
    exact ⟨fun r _ => rfl, fun r _ => rfl, fun r _ => rfl, fun r _ => rfl⟩

/-- Witness for C2 at the concrete throwing input (a non-string payload). -/
theorem extractor_exception_rollback_witness :
    parseInsightForge .nonString = emptyInsight ∧
    parsePanorama .nonString = emptyPanorama ∧
    parseInterview .nonString = emptyInterview ∧
    parseQuickSearch .nonString = emptyQuickSearch :=
  ⟨(extractor_exception_rollback .nonString).1 emptyInsight rfl,
   (extractor_exception_rollback .nonString).2.1 emptyPanorama rfl,
   (extractor_exception_rollback .nonString).2.2.1 emptyInterview rfl,
   (extractor_exception_rollback .nonString).2.2.2 emptyQuickSearch rfl⟩

/-- **C3**: evaluation of `renderMarkdown` at the claim's two inputs.  The
line `"## Title"` does render as a heading with no paragraph wrapper, but
`"- item\n- item2"` renders as **two** single-item `<ul>` containers joined
by `<br>` — not one container with two items — because the adjacent-item
merge pass (line 1129) is a no-op and the wrapping regex cannot cross the
newline between the two `<li>` elements. -/
theorem renderMarkdown_block_eval :
    renderMarkdown "## Title" = "<h3 class=\"md-h3\">Title</h3>" ∧
    renderMarkdown "- item\n- item2" =
      "<ul class=\"md-ul\"><li class=\"md-li\">item</li></ul><br><ul class=\"md-ul\"><li class=\"md-li\">item2</li></ul>" ∧
    seqCount "<ul class=\"md-ul\">".data (renderMarkdown "- item\n- item2").data = 2 :=
  ⟨by decide, by decide, by decide⟩

/-- **C4**: for any sequence of polls of either log stream under the §6
server contract (each successful response's `from_line` equals the cursor
held when it is processed), the cursor after folding the trace equals its
starting value plus the sum of the successful polls' entry counts — from
cursor 0, the sum `c1+…+ci` — and a failed poll leaves the whole state,
hence the cursor, unchanged. -/
theorem cursor_accumulates (reportId : Option String)
    (hid : jsTruthyStr reportId = true) :
    (∀ (s : CompState) (rs : List (PollOutcome LogEntry)),
        agentTraceWF reportId s rs = true →
        (rs.foldl (fetchAgentLogStep reportId) s).agentLogLine =
          s.agentLogLine + okCount rs) ∧
    (∀ s : CompState, fetchAgentLogStep reportId s .fail = s) ∧
    (∀ (s : CompState) (rs : List (PollOutcome String)),
        consoleTraceWF reportId s rs = true →
        (rs.foldl (fetchConsoleLogStep reportId) s).consoleLogLine =
          s.consoleLogLine + okCount rs) ∧
    (∀ s : CompState, fetchConsoleLogStep reportId s .fail = s) :=
  ⟨fun s rs h => agent_cursor_sum reportId hid rs s h,
   fun _ => by simp [fetchAgentLogStep, hid],
   fun s rs h => console_cursor_sum reportId hid rs s h,
   fun _ => by simp [fetchConsoleLogStep, hid]⟩

def entryLLM : LogEntry := ⟨7, "llm_response", none, none⟩

/-- Witness for C4: a concrete three-poll agent trace (counts 1, failure, 2)
accumulates to cursor 3, and a failed poll is the identity. -/
theorem cursor_accumulates_witness :
    (([PollOutcome.ok [entryLLM] 0, .fail, .ok [entryLLM, entryLLM] 1].foldl
        (fetchAgentLogStep (some "rpt")) initState).agentLogLine =
      initState.agentLogLine +
        okCount [PollOutcome.ok [entryLLM] 0, .fail, .ok [entryLLM, entryLLM] 1]) ∧
    fetchAgentLogStep (some "rpt") initState .fail = initState :=
  ⟨(cursor_accumulates (some "rpt") (by decide)).1 initState _ (by decide),
   (cursor_accumulates (some "rpt") (by decide)).2.1 initState⟩

/-- **C5**: the completion percentage is `0` whenever the outline has no
sections (no division by zero), and otherwise differs from the exact value
`completedSectionCount / totalSectionCount * 100` by at most `1/2` — i.e. it
is that ratio rounded to the nearest integer. -/
theorem progressPercent_spec (s : CompState) :
    (totalSections s = 0 → progressPercent s = 0) ∧
    (totalSections s ≠ 0 →
      |(progressPercent s : ℚ) -
        (completedSections s : ℚ) / (totalSections s : ℚ) * 100| ≤ 1 / 2) := by
  constructor
  · intro h; simp [progressPercent, h]
  · intro h
    rw [progressPercent, if_neg h]
    rw [abs_sub_comm]
    exact abs_sub_round _

def quarterState : CompState :=
  { initState with
    reportOutline := some ⟨"t", "s", [⟨"a"⟩, ⟨"b"⟩, ⟨"c"⟩, ⟨"d"⟩]⟩
    generatedSections := [(some 1, "done")] }

/-- Witness for C5: the empty state reports 0, and a 1-of-4 state is within
`1/2` of 25. -/
theorem progressPercent_spec_witness :
    progressPercent initState = 0 ∧
    |(progressPercent quarterState : ℚ) -
      (completedSections quarterState : ℚ) / (totalSections quarterState : ℚ) * 100|
      ≤ 1 / 2 :=
  ⟨(progressPercent_spec initState).1 rfl,
   (progressPercent_spec quarterState).2 (by decide)⟩

/-- **C6**: on any text containing none of an extractor's anchor markers —
the empty string in particular — all four extractors return their
zero-valued records, and (being total functions on strings) propagate no
exception. -/
theorem extractors_degrade (text : String)
    (h1 : insightAnchors.all (fun a => !containsTok a text) = true)
    (h2 : panoramaAnchors.all (fun a => !containsTok a text) = true)
    (h3 : interviewAnchors.all (fun a => !containsTok a text) = true)
    (h4 : quickSearchAnchors.all (fun a => !containsTok a text) = true) :
    parseInsightForge (.str text) = emptyInsight ∧
    parsePanorama (.str text) = emptyPanorama ∧
    parseInterview (.str text) = emptyInterview ∧
    parseQuickSearch (.str text) = emptyQuickSearch :=
  ⟨insightCore_default text h1, panoramaCore_default text h2,
   interviewCore_default text h3, quickSearchCore_default text h4⟩

/-- Witness for C6 at the empty string. -/
theorem extractors_degrade_witness :
    parseInsightForge (.str "") = emptyInsight ∧
    parsePanorama (.str "") = emptyPanorama ∧
    parseInterview (.str "") = emptyInterview ∧
    parseQuickSearch (.str "") = emptyQuickSearch :=
  extractors_degrade "" (by decide) (by decide) (by decide) (by decide)

/-- **C7 (amended)**: on every input the list caps hold for facts (10 in
InsightForge and QuickSearch), entities (8 in InsightForge, 10 in Panorama),
active facts (8 in Panorama) and relations (6); extra matches are silently
dropped by `slice`.  The `quotes` list of the `Step4Report.vue`
`parseInterview`, however, has **no** cap (only the `part_000` variant caps
it, at 2). -/
theorem extractor_caps (v : JSVal) :
    (parseInsightForge v).facts.length ≤ 10 ∧
    (parseInsightForge v).entities.length ≤ 8 ∧
    (parseInsightForge v).relations.length ≤ 6 ∧
    (parsePanorama v).activeFacts.length ≤ 8 ∧
    (parsePanorama v).entities.length ≤ 10 ∧
    (parseQuickSearch v).facts.length ≤ 10 := by
  cases v with
  | nonString =>
    exact ⟨by decide, by decide, by decide, by decide, by decide, by decide⟩
  | str t =>
    exact ⟨insightFacts_le t.data, insightEntities_le t.data,
      insightRelations_le t.data, panoramaActiveFacts_le t,
      panoramaEntities_le t, quickFacts_le t⟩

def quotedInterviewText : String :=
  "#### 采访 #1: T\n**N** (R)\n**关键引言:**\n> \"q1\"\n> \"q2\"\n> \"q3\"\n> \"q4\"\n"

/-- **C7 (counterexample)**: an interview block carrying four key quotes
yields an interview record with `quotes.length = 4`, violating the claimed
"at most 2–3 quotes per interview record" cap. -/
theorem interview_quotes_uncapped_cex :
    ((parseInterview (.str quotedInterviewText)).interviews.map
        (fun iv => iv.quotes.length) = [4]) ∧
    ((parseInterview (.str quotedInterviewText)).interviews.all
        (fun iv => iv.quotes.length ≤ 3)) = false :=
  ⟨by decide, by decide⟩

/-- **C8**: folding a `section_complete` entry carrying a nonempty
`details.content` writes `GeneratedSections[section_index] = content`, adds
`section_index - 1` to the expanded-section set, and clears
CurrentSectionIndex to `null`. -/
theorem section_complete_writes (s : CompState) (e : LogEntry) (c : String) (i : Int)
    (ha : e.action = "section_complete") (hc : contentOf e = some c)
    (hne : c ≠ "") (hi : e.sectionIdx = some i) :
    lookupKey (applyAgentEntry s e).generatedSections (some i) = some c ∧
    some (i - 1) ∈ (applyAgentEntry s e).expandedContent ∧
    (applyAgentEntry s e).currentSectionIndex = none := by
  unfold applyAgentEntry
  simp [ha, hc, hi, hne, lookupKey_setKey, mem_setAdd]

def sectionStartEntry : LogEntry := ⟨10, "section_start", some 1, none⟩

def sectionDoneEntry : LogEntry :=
  ⟨11, "section_complete", some 1, some ⟨none, some "Body"⟩⟩

/-- Witness for C8: the spec's concrete scenario
`[section_start 1, section_complete 1 "Body"]` folded from the initial
state. -/
theorem section_complete_writes_witness :
    lookupKey (([sectionStartEntry, sectionDoneEntry].foldl applyAgentEntry
        initState).generatedSections) (some 1) = some "Body" ∧
    some 0 ∈ ([sectionStartEntry, sectionDoneEntry].foldl applyAgentEntry
        initState).expandedContent ∧
    ([sectionStartEntry, sectionDoneEntry].foldl applyAgentEntry
        initState).currentSectionIndex = none := by
  have h := section_complete_writes (applyAgentEntry initState sectionStartEntry)
    sectionDoneEntry "Body" 1 rfl rfl (by decide) rfl
  simpa [List.foldl] using h

/-- **C9 (amended)**: switching the report id resets the twelve listed refs
— logs, both cursors, outline, current section, generated sections, the
expanded/collapsed sets, the completion flag and the start time — to their
initial values, but does **not** reset the `showRawResult` toggle map, which
survives as residue from the previous session. -/
theorem reset_clears_all_but_showRawResult (s : CompState) :
    resetOnReportId s = { initState with showRawResult := s.showRawResult } := rfl

/-- **C9 (counterexample)**: toggling a raw-result panel during session A
and then switching A → B → A does not restore the fresh initial state for A
— `showRawResult` still holds the stale toggle. -/
theorem reset_residue_cex :
    resetOnReportId (resetOnReportId (toggleRawResult initState 5)) ≠ initState := by
  decide

/-- **C10**: folding a `section_complete` entry whose `details.content` is
absent still clears CurrentSectionIndex to `null` while leaving
GeneratedSections and the expanded-section set completely unchanged. -/
theorem section_complete_no_content_frame (s : CompState) (e : LogEntry)
    (ha : e.action = "section_complete") (hc : contentOf e = none) :
    (applyAgentEntry s e).currentSectionIndex = none ∧
    (applyAgentEntry s e).generatedSections = s.generatedSections ∧
    (applyAgentEntry s e).expandedContent = s.expandedContent := by
  unfold applyAgentEntry
  simp [ha, hc]

def sectionDoneNoContent : LogEntry := ⟨12, "section_complete", some 2, none⟩

def primedState : CompState :=
  { initState with
    generatedSections := [(some 1, "kept")]
    expandedContent := [some 0]
    currentSectionIndex := some 2 }

/-- Witness for C10 at a state with existing content and a concrete
content-less `section_complete` entry. -/
theorem section_complete_no_content_frame_witness :
    (applyAgentEntry primedState sectionDoneNoContent).currentSectionIndex = none ∧
    (applyAgentEntry primedState sectionDoneNoContent).generatedSections =
      primedState.generatedSections ∧
    (applyAgentEntry primedState sectionDoneNoContent).expandedContent =
      primedState.expandedContent :=
  section_complete_no_content_frame primedState sectionDoneNoContent rfl rfl

end MiroFish
